import Mathlib

/-!
Shallow embedding of the certificate-signals layer of the edx-platform
fragment: the signal handlers in
`lms/djangoapps/certificates/signals.py`, the certificate status
enumeration from
`openedx/core/djangoapps/certificates/tests/test_api.py`, and the URL
table of `openedx/core/djangoapps/courseware_api/urls.py`.

Handlers are embedded as pure functions from an explicit read-only
environment (feature flag, allowlist membership, enrollment data) and a
mutable state (certificate records, per-course self-generation setting)
to an updated state together with a list of emitted effects (the
deferred task invocations).  Functions the handlers call that live in
modules outside the provided sources (`auto_certificate_generation_enabled`,
`is_on_certificate_allowlist`, `CertificateStatuses.is_passing_status`,
`CourseEnrollment.enrollment_mode_for_user`, `enrollments_for_user`,
`IDVerificationService.user_status`, `modes_api.is_eligible_for_certificate`)
are kept abstract as fields of the environment, so every theorem about a
handler holds for each possible behaviour of those callees.
-/

namespace EdxCertSignals

/-- Users are identified by their numeric id. -/
abbrev User := Nat

/-- Opaque course-run keys (Django `CourseKey`), embedded as strings. -/
abbrev CourseKey := String

/-- Enrollment modes (`audit`, `verified`, ...), embedded as strings. -/
abbrev Mode := String

/-- Grade percent.  The Python value is a float that the handlers only
pipe through unchanged into `mark_notpassing`, so any carrier type is
faithful; we use `Int`. -/
abbrev Percent := Int

/-- The certificate status enumeration, from the `CertificateStatuses`
class in `openedx/core/djangoapps/certificates/tests/test_api.py`. -/
inductive CertStatus where
  | deleted
  | deleting
  | downloadable
  | error
  | generating
  | notpassing
  | restricted
  | unavailable
  | auditing
  | audit_passing
  | audit_notpassing
  | unverified
  | invalidated
  | requesting
deriving DecidableEq, Repr

/-- The fixed fourteen-element tuple `CertificateStatuses.ALL_STATUSES`
of every certificate status. -/
def ALL_STATUSES : List CertStatus :=
  [ .deleted, .deleting, .downloadable, .error, .generating, .notpassing,
    .restricted, .unavailable, .auditing, .audit_passing, .audit_notpassing,
    .unverified, .invalidated, .requesting ]

/-- A `GeneratedCertificate` record, restricted to the fields the shown
code reads or writes. -/
structure Cert where
  status : CertStatus
  mode : Mode
  gradePercent : Percent
deriving DecidableEq, Repr

/-- Modelled from the spec: `GeneratedCertificate.mark_notpassing` (defined
in `lms/djangoapps/certificates/models.py`, which is not among the provided
sources) marks the certificate notpassing with the given enrollment mode
and grade percent. -/
def Cert.mark_notpassing (c : Cert) (mode : Mode) (grade : Percent) : Cert :=
  { c with status := .notpassing, mode := mode, gradePercent := grade }

/-- A `CourseOverview` record, restricted to the fields read by the
pacing-change handler. -/
structure CourseOverview where
  id : CourseKey
  self_paced : Bool
deriving DecidableEq, Repr

/-- The grade object delivered with `COURSE_GRADE_NOW_FAILED`; the handler
reads only `grade.percent`. -/
structure Grade where
  percent : Percent
deriving DecidableEq, Repr

/-- Read-only environment of the handlers: the feature flag and the
behaviour of the callees defined outside the provided sources. -/
structure Env where
  /-- Value of `auto_certificate_generation_enabled()`. -/
  autoCertGenEnabled : Bool
  /-- Value of `is_on_certificate_allowlist(user, course_id)`. -/
  onAllowlist : User → CourseKey → Bool
  /-- Value of `CertificateStatuses.is_passing_status(status)`. -/
  isPassingStatus : CertStatus → Bool
  /-- First component of `CourseEnrollment.enrollment_mode_for_user`. -/
  enrollmentModeFor : User → CourseKey → Mode
  /-- Course ids of `CourseEnrollment.enrollments_for_user(user)`, in order. -/
  enrollmentsFor : User → List CourseKey
  /-- Value of `IDVerificationService.user_status(user)['status']`. -/
  idVerificationStatus : User → String
  /-- Value of `modes_api.is_eligible_for_certificate(mode)`. -/
  isEligibleForCertificate : Mode → Bool

/-- Mutable state the handlers can update: the certificate table
(`GeneratedCertificate.certificate_for_student`) and the per-course
`CertificateGenerationCourseSetting` self-generation flag. -/
structure State where
  certs : User → CourseKey → Option Cert
  selfGenerationEnabled : CourseKey → Bool

/-- Effects emitted by the handlers: the deferred task invocations. -/
inductive Effect where
  | generateCertificateTask (user : User) (courseId : CourseKey)
  | generateAllowlistCertificateTask (user : User) (courseId : CourseKey)
deriving DecidableEq, Repr

/-- Embedding of `_update_cert_settings_on_pacing_change`
(signals.py, `COURSE_PACING_CHANGED` receiver): sets the course's
self-generated-certificates setting to the course's `self_paced` flag. -/
def _update_cert_settings_on_pacing_change (st : State)
    (updated_course_overview : CourseOverview) : State × List Effect :=
  ({ st with
      selfGenerationEnabled := fun c =>
        if c = updated_course_overview.id then updated_course_overview.self_paced
        else st.selfGenerationEnabled c },
   [])

/-- Embedding of `_listen_for_certificate_allowlist_append`
(signals.py, `post_save` receiver on `CertificateAllowlist`): when the
feature is enabled and the user is on the allowlist, invoke the
allowlist certificate generation task. -/
def _listen_for_certificate_allowlist_append (env : Env) (st : State)
    (user : User) (course_id : CourseKey) : State × List Effect :=
  if ¬ env.autoCertGenEnabled then (st, [])
  else if env.onAllowlist user course_id then
    (st, [.generateAllowlistCertificateTask user course_id])
  else (st, [])

/-- Embedding of `listen_for_passing_grade`
(signals.py, `COURSE_GRADE_NOW_PASSED` receiver). -/
def listen_for_passing_grade (env : Env) (st : State)
    (user : User) (course_id : CourseKey) : State × List Effect :=
  if ¬ env.autoCertGenEnabled then (st, [])
  else
    match st.certs user course_id with
    | some cert =>
        if env.isPassingStatus cert.status then (st, [])
        else (st, [.generateCertificateTask user course_id])
    | none => (st, [.generateCertificateTask user course_id])

/-- Embedding of `_listen_for_failing_grade`
(signals.py, `COURSE_GRADE_NOW_FAILED` receiver). -/
def _listen_for_failing_grade (env : Env) (st : State)
    (user : User) (course_id : CourseKey) (grade : Grade) : State × List Effect :=
  if env.onAllowlist user course_id then (st, [])
  else
    match st.certs user course_id with
    | some cert =>
        if env.isPassingStatus cert.status then
          let enrollment_mode := env.enrollmentModeFor user course_id
          ({ st with
              certs := fun u c =>
                if u = user ∧ c = course_id then
                  some (cert.mark_notpassing enrollment_mode grade.percent)
                else st.certs u c },
           [])
        else (st, [])
    | none => (st, [])

/-- Embedding of `_listen_for_id_verification_status_changed`
(signals.py, `LEARNER_NOW_VERIFIED` receiver).  The computed
verification status is only interpolated into the log message. -/
def _listen_for_id_verification_status_changed (env : Env) (st : State)
    (user : User) : State × List Effect :=
  if ¬ env.autoCertGenEnabled then (st, [])
  else
    (st, (env.enrollmentsFor user).map fun enrollment_course_id =>
      .generateCertificateTask user enrollment_course_id)

/-- Embedding of `_listen_for_enrollment_mode_change`
(signals.py, `ENROLLMENT_TRACK_UPDATED` receiver). -/
def _listen_for_enrollment_mode_change (env : Env) (st : State)
    (user : User) (course_key : CourseKey) (mode : Mode) : State × List Effect :=
  if env.isEligibleForCertificate mode then
    (st, [.generateCertificateTask user course_key])
  else (st, [])

/-- Modelled from the spec: `can_show_certificate_available_date_field`
(defined in `openedx/core/djangoapps/certificates/api.py`, which is not
among the provided sources).  Its truth table, fixed by
`test_can_show_certificate_available_date_field` in the provided test
file, is: true exactly when the auto-certificate-generation feature is
enabled and the course is instructor-paced. -/
def can_show_certificate_available_date_field (featureEnabled : Bool)
    (course : CourseOverview) : Bool :=
  featureEnabled && !course.self_paced

end EdxCertSignals

namespace EdxCoursewareApi

/-- The view handlers referenced by `courseware_api/urls.py`. -/
inductive ViewHandler where
  | CoursewareInformation
  | SequenceMetadata
  | Resume
  | Celebration
deriving DecidableEq, Repr

/-- One `url(...)` entry: regex pattern, view handler, route name. -/
structure Route where
  pattern : String
  handler : ViewHandler
  name : String
deriving DecidableEq, Repr

/-- The regex `USAGE_KEY_HASH_PATTERN` from urls.py. -/
def USAGE_KEY_HASH_PATTERN : String := "[A-Za-z0-9_-]+"

/-- The regex `SEQUENCE_KEY_OR_HASH_PATTERN` from urls.py, as a function
of the externally defined `settings.USAGE_KEY_PATTERN`. -/
def SEQUENCE_KEY_OR_HASH_PATTERN (usageKeyPattern : String) : String :=
  usageKeyPattern ++ "|" ++ USAGE_KEY_HASH_PATTERN

/-- Embedding of `urlpatterns` from `courseware_api/urls.py`, as a
function of the externally defined `settings.COURSE_KEY_PATTERN` and
`settings.USAGE_KEY_PATTERN`. -/
def urlpatterns (courseKeyPattern usageKeyPattern : String) : List Route :=
  [ { pattern := "^course/" ++ courseKeyPattern,
      handler := .CoursewareInformation, name := "courseware-api" },
    { pattern := "^sequence/" ++ SEQUENCE_KEY_OR_HASH_PATTERN usageKeyPattern,
      handler := .SequenceMetadata, name := "sequence-api" },
    { pattern := "^resume/" ++ courseKeyPattern,
      handler := .Resume, name := "resume-api" },
    { pattern := "^celebration/" ++ courseKeyPattern,
      handler := .Celebration, name := "celebration-api" } ]

end EdxCoursewareApi

namespace EdxCertSignals

/-- Claim C1: on a COURSE_GRADE_NOW_PASSED event, `listen_for_passing_grade`
invokes `generate_certificate_task(user, course_id)` if and only if
`auto_certificate_generation_enabled()` is true and there is no existing
certificate for (user, course_id) whose status is a passing status; when a
certificate with passing status already exists it returns without invoking
the task (and it never updates the state). -/
theorem listen_for_passing_grade_spec (env : Env) (st : State)
    (user : User) (course_id : CourseKey) :
    (Effect.generateCertificateTask user course_id ∈
        (listen_for_passing_grade env st user course_id).2 ↔
      (env.autoCertGenEnabled = true ∧
        ¬ ∃ cert, st.certs user course_id = some cert ∧
          env.isPassingStatus cert.status = true))
    ∧ ((∃ cert, st.certs user course_id = some cert ∧
          env.isPassingStatus cert.status = true) →
        (listen_for_passing_grade env st user course_id).2 = [])
    ∧ (listen_for_passing_grade env st user course_id).1 = st := by
  cases hflag : env.autoCertGenEnabled with
  | false =>
    simp [listen_for_passing_grade, hflag]
  | true =>
    cases hcert : st.certs user course_id with
    | none =>
      simp [listen_for_passing_grade, hflag, hcert]
    | some cert =>
      cases hpass : env.isPassingStatus cert.status with
      | false => simp [listen_for_passing_grade, hflag, hcert, hpass]
      | true => simp [listen_for_passing_grade, hflag, hcert, hpass]

/-- Claim C2: on a COURSE_GRADE_NOW_FAILED event, `_listen_for_failing_grade`
marks the certificate notpassing (with the user's enrollment mode and
`grade.percent`) if and only if the user is not on the allowlist for the
course and a certificate exists for (user, course_id) whose status is a
passing status; in every other case the certificate state is left
unchanged, and the handler never invokes a task. -/
theorem listen_for_failing_grade_spec (env : Env) (st : State)
    (user : User) (course_id : CourseKey) (grade : Grade) :
    (∀ cert, env.onAllowlist user course_id = false →
        st.certs user course_id = some cert →
        env.isPassingStatus cert.status = true →
        ((_listen_for_failing_grade env st user course_id grade).1.certs
            user course_id =
          some (cert.mark_notpassing (env.enrollmentModeFor user course_id)
            grade.percent)))
    ∧ ((env.onAllowlist user course_id = true ∨
        st.certs user course_id = none ∨
        (∃ cert, st.certs user course_id = some cert ∧
          env.isPassingStatus cert.status = false)) →
        (_listen_for_failing_grade env st user course_id grade).1 = st)
    ∧ (∀ u c, (u ≠ user ∨ c ≠ course_id) →
        (_listen_for_failing_grade env st user course_id grade).1.certs u c =
          st.certs u c)
    ∧ (_listen_for_failing_grade env st user course_id grade).1.selfGenerationEnabled
        = st.selfGenerationEnabled
    ∧ (_listen_for_failing_grade env st user course_id grade).2 = [] := by
  cases hallow : env.onAllowlist user course_id with
  | true =>
    simp [_listen_for_failing_grade, hallow]
  | false =>
    cases hcert : st.certs user course_id with
    | none =>
      simp [_listen_for_failing_grade, hallow, hcert]
    | some cert =>
      cases hpass : env.isPassingStatus cert.status with
      | false =>
        simp [_listen_for_failing_grade, hallow, hcert, hpass]
      | true =>
        refine ⟨?_, ?_, ?_, ?_, ?_⟩
        · intro cert2 _ hc2 _
          simp only [Option.some.injEq] at hc2
          subst hc2
          simp [_listen_for_failing_grade, hallow, hcert, hpass]
        · rintro (h | h | ⟨c2, hc2, hp2⟩)
          · exact absurd h (by simp [hallow])
          · exact absurd h (by simp [hcert])
          · simp only [Option.some.injEq] at hc2
            subst hc2
            simp [hpass] at hp2
        · intro u c huc
          simp only [_listen_for_failing_grade, hallow, hcert, hpass]
          simp only [Bool.false_eq_true, if_false]
          have : ¬ (u = user ∧ c = course_id) := by
            rintro ⟨rfl, rfl⟩
            rcases huc with h | h <;> exact h rfl
          simp [this]
        · simp [_listen_for_failing_grade, hallow, hcert, hpass]
        · simp [_listen_for_failing_grade, hallow, hcert, hpass]

/-- Claim C3: each feature-gated handler (allowlist append, passing grade,
learner verified) returns early when `auto_certificate_generation_enabled()`
is false: no task is invoked and the state is unchanged. -/
theorem feature_gated_handlers_early_return (env : Env) (st : State)
    (user : User) (course_id : CourseKey) :
    _listen_for_certificate_allowlist_append
        { env with autoCertGenEnabled := false } st user course_id = (st, [])
    ∧ listen_for_passing_grade
        { env with autoCertGenEnabled := false } st user course_id = (st, [])
    ∧ _listen_for_id_verification_status_changed
        { env with autoCertGenEnabled := false } st user = (st, []) := by
  refine ⟨?_, ?_, ?_⟩ <;>
    simp [_listen_for_certificate_allowlist_append, listen_for_passing_grade,
      _listen_for_id_verification_status_changed]

/-- Claim C4: on a COURSE_PACING_CHANGED event the handler sets the course's
self-generated-certificates setting to exactly the course's `self_paced`
flag, changes no other course's setting, leaves the certificate table
unchanged and invokes no task. -/
theorem update_cert_settings_on_pacing_change_spec (st : State)
    (overview : CourseOverview) :
    ((_update_cert_settings_on_pacing_change st overview).1.selfGenerationEnabled
        overview.id = overview.self_paced)
    ∧ (∀ c, c ≠ overview.id →
        (_update_cert_settings_on_pacing_change st overview).1.selfGenerationEnabled c
          = st.selfGenerationEnabled c)
    ∧ (_update_cert_settings_on_pacing_change st overview).1.certs = st.certs
    ∧ (_update_cert_settings_on_pacing_change st overview).2 = [] := by
  refine ⟨?_, ?_, rfl, rfl⟩
  · simp [_update_cert_settings_on_pacing_change]
  · intro c hc
    simp [_update_cert_settings_on_pacing_change, hc]

/-- Claim C5: every certificate status belongs to the fixed
fourteen-element enumeration `ALL_STATUSES`, and the operations shown (in
particular marking a certificate notpassing on a failing grade) preserve
membership in it: the status of any certificate stored by the
failing-grade handler is in the enumeration, and `mark_notpassing`
produces the status `notpassing`, itself in the enumeration. -/
theorem cert_status_enumeration_spec :
    (∀ s : CertStatus, s ∈ ALL_STATUSES)
    ∧ ALL_STATUSES.length = 14
    ∧ (∀ (c : Cert) (mode : Mode) (g : Percent),
        (c.mark_notpassing mode g).status = CertStatus.notpassing ∧
        (c.mark_notpassing mode g).status ∈ ALL_STATUSES)
    ∧ (∀ (env : Env) (st : State) (user : User) (course_id : CourseKey)
        (grade : Grade) (u : User) (c : CourseKey) (cert : Cert),
        (_listen_for_failing_grade env st user course_id grade).1.certs u c
          = some cert →
        cert.status ∈ ALL_STATUSES) := by
  refine ⟨?_, rfl, ?_, ?_⟩
  · intro s; cases s <;> simp [ALL_STATUSES]
  · intro c mode g
    refine ⟨rfl, ?_⟩
    simp [Cert.mark_notpassing, ALL_STATUSES]
  · intro env st user course_id grade u c cert _
    cases cert.status <;> simp [ALL_STATUSES]

end EdxCertSignals

namespace EdxCertSignals

/-- Claim C6: `can_show_certificate_available_date_field` returns true if
and only if the auto-certificate-generation feature is enabled and the
course is not self-paced; in particular it is false for every self-paced
course regardless of the feature flag. -/
theorem can_show_certificate_available_date_field_spec (featureEnabled : Bool)
    (course : CourseOverview) :
    (can_show_certificate_available_date_field featureEnabled course = true ↔
      (featureEnabled = true ∧ course.self_paced = false))
    ∧ (course.self_paced = true →
        can_show_certificate_available_date_field featureEnabled course = false) := by
  rcases course with ⟨cid, sp⟩
  cases featureEnabled <;> cases sp <;>
    simp [can_show_certificate_available_date_field]

/-- Claim C8: `_listen_for_failing_grade` is not gated by the
auto-certificate-generation feature flag: its result (state and effects)
is identical for any two environments that differ only in the value of
`auto_certificate_generation_enabled()`. -/
theorem listen_for_failing_grade_flag_independent (env : Env) (st : State)
    (user : User) (course_id : CourseKey) (grade : Grade) (b : Bool) :
    _listen_for_failing_grade { env with autoCertGenEnabled := b }
        st user course_id grade
      = _listen_for_failing_grade env st user course_id grade := rfl

/-- Claim C9: `_listen_for_enrollment_mode_change` never modifies any
certificate or other state: it leaves the state unchanged in every case,
and it invokes `generate_certificate_task(user, course_key)` exactly when
the new mode is eligible for a certificate, otherwise it invokes
nothing. -/
theorem listen_for_enrollment_mode_change_spec (env : Env) (st : State)
    (user : User) (course_key : CourseKey) (mode : Mode) :
    ((_listen_for_enrollment_mode_change env st user course_key mode).1 = st)
    ∧ ((_listen_for_enrollment_mode_change env st user course_key mode).2 =
          [Effect.generateCertificateTask user course_key] ↔
        env.isEligibleForCertificate mode = true)
    ∧ (env.isEligibleForCertificate mode = false →
        (_listen_for_enrollment_mode_change env st user course_key mode).2 = []) := by
  cases helig : env.isEligibleForCertificate mode <;>
    simp [_listen_for_enrollment_mode_change, helig]

/-- Claim C10: with the auto-certificate-generation feature enabled,
`_listen_for_id_verification_status_changed` invokes
`generate_certificate_task(user, course_id)` once for every course
enrollment of the user (in order), modifies no state, and its result does
not depend on the user's computed ID-verification status. -/
theorem listen_for_id_verification_status_changed_spec (env : Env)
    (st : State) (user : User) (v : User → String) :
    ((env.autoCertGenEnabled = true →
        (_listen_for_id_verification_status_changed env st user).2 =
          (env.enrollmentsFor user).map
            (fun course_id => Effect.generateCertificateTask user course_id)))
    ∧ (_listen_for_id_verification_status_changed env st user).1 = st
    ∧ (_listen_for_id_verification_status_changed
          { env with idVerificationStatus := v } st user =
        _listen_for_id_verification_status_changed env st user) := by
  refine ⟨?_, ?_, rfl⟩
  · intro hflag
    simp [_listen_for_id_verification_status_changed, hflag]
  · cases hflag : env.autoCertGenEnabled <;>
      simp [_listen_for_id_verification_status_changed, hflag]

end EdxCertSignals

namespace EdxCoursewareApi

/-- Claim C7: for every externally supplied course-key and usage-key
pattern, `urlpatterns` defines exactly four routes, mapping the
course-metadata, sequence-metadata, resume-position and celebration URL
patterns to the handlers CoursewareInformation, SequenceMetadata, Resume
and Celebration respectively. -/
theorem urlpatterns_spec (courseKeyPattern usageKeyPattern : String) :
    ((urlpatterns courseKeyPattern usageKeyPattern).length = 4)
    ∧ ((urlpatterns courseKeyPattern usageKeyPattern).map Route.handler =
        [.CoursewareInformation, .SequenceMetadata, .Resume, .Celebration])
    ∧ ((urlpatterns courseKeyPattern usageKeyPattern).map Route.pattern =
        [ "^course/" ++ courseKeyPattern,
          "^sequence/" ++ (usageKeyPattern ++ "|" ++ "[A-Za-z0-9_-]+"),
          "^resume/" ++ courseKeyPattern,
          "^celebration/" ++ courseKeyPattern ])
    ∧ ((urlpatterns courseKeyPattern usageKeyPattern).map Route.name =
        ["courseware-api", "sequence-api", "resume-api", "celebration-api"]) :=
  ⟨rfl, rfl, rfl, rfl⟩

end EdxCoursewareApi
